import Mathlib

/-!
Verification of the authentication core of a FastAPI backend
(`app/core/security.py`, `app/core/database.py`, `app/routes/auth.py`,
`app/routes/user.py`) against its natural-language specification.

The Python code is shallowly embedded: pure helpers become Lean
functions, the database session becomes an explicit `DB` state threaded
through handlers, JWT tokens become a record carrying payload, signing
key and algorithm (signature verification is modelled as key/algorithm
equality, expiry as an integer comparison against the current unix
time, mirroring python-jose semantics), and each raised `HTTPException`
becomes an error constructor carrying status code and detail string.
-/

/-! ## SHA-256 (FIPS 180-4), embedding `hashlib.sha256(...).hexdigest()`

Machine words are `Nat` reduced modulo `2^32` via `wmask`. -/

def wmask (x : Nat) : Nat := x % 4294967296

def rotr (n x : Nat) : Nat := wmask ((x >>> n) ||| (x <<< (32 - n)))

def bnot32 (x : Nat) : Nat := x ^^^ 4294967295

def bigSigma0 (x : Nat) : Nat := rotr 2 x ^^^ rotr 13 x ^^^ rotr 22 x

def bigSigma1 (x : Nat) : Nat := rotr 6 x ^^^ rotr 11 x ^^^ rotr 25 x

def smallSigma0 (x : Nat) : Nat := rotr 7 x ^^^ rotr 18 x ^^^ (x >>> 3)

def smallSigma1 (x : Nat) : Nat := rotr 17 x ^^^ rotr 19 x ^^^ (x >>> 10)

def chFn (x y z : Nat) : Nat := (x &&& y) ^^^ (bnot32 x &&& z)

def majFn (x y z : Nat) : Nat := (x &&& y) ^^^ (x &&& z) ^^^ (y &&& z)

/-- The sixty-four SHA-256 round constants, written in decimal. -/
def sha256K : List Nat :=
  [1116352408, 1899447441, 3049323471, 3921009573, 961987163, 1508970993,
   2453635748, 2870763221, 3624381080, 310598401, 607225278, 1426881987,
   1925078388, 2162078206, 2614888103, 3248222580, 3835390401, 4022224774,
   264347078, 604807628, 770255983, 1249150122, 1555081692, 1996064986,
   2554220882, 2821834349, 2952996808, 3210313671, 3336571891, 3584528711,
   113926993, 338241895, 666307205, 773529912, 1294757372, 1396182291,
   1695183700, 1986661051, 2177026350, 2456956037, 2730485921, 2820302411,
   3259730800, 3345764771, 3516065817, 3600352804, 4094571909, 275423344,
   430227734, 506948616, 659060556, 883997877, 958139571, 1322822218,
   1537002063, 1747873779, 1955562222, 2024104815, 2227730452, 2361852424,
   2428436474, 2756734187, 3204031479, 3329325298]

/-- Working state of the SHA-256 compression function: eight 32-bit words. -/
structure Hash8 where
  a : Nat
  b : Nat
  c : Nat
  d : Nat
  e : Nat
  f : Nat
  g : Nat
  hh : Nat
deriving Repr, DecidableEq

/-- The eight SHA-256 initial hash words, written in decimal. -/
def sha256InitH : Hash8 :=
  { a := 1779033703, b := 3144134277, c := 1013904242, d := 2773480762,
    e := 1359893119, f := 2600822924, g := 528734635, hh := 1541459225 }

/-- Message padding: append `0x80`, zero bytes up to 56 mod 64, then the
bit length as an 8-byte big-endian integer. -/
def sha256Pad (msg : List Nat) : List Nat :=
  let len := msg.length
  let zeros := (64 + 55 - len % 64) % 64
  let bitLen := len * 8
  msg ++ [0x80] ++ List.replicate zeros 0 ++
    [(bitLen >>> 56) % 256, (bitLen >>> 48) % 256, (bitLen >>> 40) % 256, (bitLen >>> 32) % 256,
     (bitLen >>> 24) % 256, (bitLen >>> 16) % 256, (bitLen >>> 8) % 256, bitLen % 256]

def chunks64Aux : Nat → List Nat → List (List Nat)
  | 0, _ => []
  | _ + 1, [] => []
  | n + 1, l => l.take 64 :: chunks64Aux n (l.drop 64)

def chunks64 (l : List Nat) : List (List Nat) := chunks64Aux l.length l

def word32 (b0 b1 b2 b3 : Nat) : Nat := ((b0 * 256 + b1) * 256 + b2) * 256 + b3

/-- Group a 64-byte chunk into sixteen big-endian 32-bit words. -/
def chunkWords : List Nat → List Nat
  | b0 :: b1 :: b2 :: b3 :: rest => word32 b0 b1 b2 b3 :: chunkWords rest
  | _ => []

def lget (w : List Nat) (i : Nat) : Nat := w.getD i 0

/-- Message schedule: extend the sixteen chunk words to sixty-four. -/
def sha256Schedule (ws : List Nat) : List Nat :=
  (List.range 48).foldl
    (fun w i =>
      let t := i + 16
      w ++ [wmask (smallSigma1 (lget w (t - 2)) + lget w (t - 7) +
                   smallSigma0 (lget w (t - 15)) + lget w (t - 16))])
    ws

def sha256Round (k wt : Nat) (s : Hash8) : Hash8 :=
  let t1 := wmask (s.hh + bigSigma1 s.e + chFn s.e s.f s.g + k + wt)
  let t2 := wmask (bigSigma0 s.a + majFn s.a s.b s.c)
  { a := wmask (t1 + t2), b := s.a, c := s.b, d := s.c,
    e := wmask (s.d + t1), f := s.e, g := s.f, hh := s.g }

def sha256Compress (hs : Hash8) (chunk : List Nat) : Hash8 :=
  let w := sha256Schedule (chunkWords chunk)
  let s := (List.range 64).foldl (fun s t => sha256Round (lget sha256K t) (lget w t) s) hs
  { a := wmask (hs.a + s.a), b := wmask (hs.b + s.b), c := wmask (hs.c + s.c),
    d := wmask (hs.d + s.d), e := wmask (hs.e + s.e), f := wmask (hs.f + s.f),
    g := wmask (hs.g + s.g), hh := wmask (hs.hh + s.hh) }

def hexDigit (n : Nat) : Char :=
  if n < 10 then Char.ofNat (48 + n) else Char.ofNat (87 + n)

/-- Lowercase hexadecimal rendering of a 32-bit word, eight digits. -/
def hex8 (x : Nat) : String :=
  String.mk ((List.range 8).map (fun i => hexDigit ((x >>> (28 - 4 * i)) % 16)))

/-- SHA-256 hex digest of a byte list, as `hashlib...hexdigest()` returns it. -/
def sha256hex (msg : List Nat) : String :=
  let hf := (chunks64 (sha256Pad msg)).foldl sha256Compress sha256InitH
  hex8 hf.a ++ hex8 hf.b ++ hex8 hf.c ++ hex8 hf.d ++
  hex8 hf.e ++ hex8 hf.f ++ hex8 hf.g ++ hex8 hf.hh

/-- UTF-8 encoding of a character, embedding Python `str.encode()`. -/
def utf8EncodeCharNat (c : Char) : List Nat :=
  let n := c.toNat
  if n < 0x80 then [n]
  else if n < 0x800 then [0xc0 ||| (n >>> 6), 0x80 ||| (n &&& 0x3f)]
  else if n < 0x10000 then
    [0xe0 ||| (n >>> 12), 0x80 ||| ((n >>> 6) &&& 0x3f), 0x80 ||| (n &&& 0x3f)]
  else
    [0xf0 ||| (n >>> 18), 0x80 ||| ((n >>> 12) &&& 0x3f),
     0x80 ||| ((n >>> 6) &&& 0x3f), 0x80 ||| (n &&& 0x3f)]

def strBytes (s : String) : List Nat := s.data.flatMap utf8EncodeCharNat

/-- Embeds `hash_password` in `app/core/security.py`:
`hashlib.sha256(password.encode()).hexdigest()`. -/
def hash_password (password : String) : String := sha256hex (strBytes password)

/-- Embeds `verify_password` in `app/core/security.py`:
`hash_password(password) == password_hash`. -/
def verify_password (password : String) (password_hash : String) : Bool :=
  hash_password password == password_hash

/-! ## Python `int()` on strings

`get_current_user` runs `int(user_id)` on the token subject.  Python's
`int` on a string strips surrounding whitespace, allows one optional
sign, and requires a nonempty digit string; on anything else it raises
`ValueError`. -/

def isPySpace (c : Char) : Bool :=
  c.toNat == 32 || c.toNat == 9 || c.toNat == 10 ||
  c.toNat == 13 || c.toNat == 11 || c.toNat == 12

/-- Both-ends whitespace strip of the underlying character list. -/
def pyStrip (s : String) : List Char :=
  ((s.data.dropWhile isPySpace).reverse.dropWhile isPySpace).reverse

def charDigit? (c : Char) : Option Nat :=
  if 48 ≤ c.toNat ∧ c.toNat ≤ 57 then some (c.toNat - 48) else none

def decDigitsAux : List Char → Nat → Option Nat
  | [], acc => some acc
  | c :: cs, acc =>
    match charDigit? c with
    | none => none
    | some d => decDigitsAux cs (acc * 10 + d)

/-- Value of a nonempty all-digit character run. -/
def decDigits? : List Char → Option Nat
  | [] => none
  | c :: cs => decDigitsAux (c :: cs) 0

def pyIntParse (s : String) : Option Int :=
  match pyStrip s with
  | '-' :: rest => (decDigits? rest).map (fun n => -(n : Int))
  | '+' :: rest => (decDigits? rest).map (fun n => (n : Int))
  | cs => (decDigits? cs).map (fun n => (n : Int))

/-! ## Data model

`User` rows (`app/models/user.py` as used by the routes): integer
autoincrement primary key `id`, unique `email`, `password_hash`.  The
database session is a list of rows plus the next autoincrement id. -/

deriving instance DecidableEq for Except

structure Account where
  id : Int
  email : String
  password_hash : String
deriving Repr, DecidableEq

structure DB where
  accounts : List Account
  next_id : Int
deriving Repr, DecidableEq

/-- Embeds `db.query(User).filter(User.email == email).first()`. -/
def findByEmail (db : DB) (email : String) : Option Account :=
  db.accounts.find? (fun a => a.email == email)

/-- Embeds `db.query(User).filter(User.id == i).first()`. -/
def findById (db : DB) (i : Int) : Option Account :=
  db.accounts.find? (fun a => a.id == i)

/-- Number of stored rows carrying a given email. -/
def countEmail (db : DB) (email : String) : Nat :=
  (db.accounts.filter (fun a => a.email == email)).length

/-- Pairwise-distinct emails, executably. -/
def emailsDistinct : List Account → Bool
  | [] => true
  | a :: tl => tl.all (fun b => a.email != b.email) && emailsDistinct tl

/-- The storage-enforced uniqueness invariant: no two rows share an email. -/
def emailUnique (db : DB) : Prop := emailsDistinct db.accounts = true

instance (db : DB) : Decidable (emailUnique db) := by
  unfold emailUnique
  infer_instance

/-! ## JWT model (python-jose)

A token is modelled as the signed payload together with the key and
algorithm it was signed with; `jwt.decode` succeeds when the presented
key equals the signing key and the signing algorithm is among the
accepted ones (signature verification), then rejects the token with
`ExpiredSignatureError` — a subclass of `JWTError` — when the embedded
`exp` is in the past.  Times are unix seconds. -/

structure JWTPayload where
  sub : Option String
  exp : Int
deriving Repr, DecidableEq

structure Token where
  payload : JWTPayload
  key : String
  alg : String
deriving Repr, DecidableEq

inductive JWTError where
  | signatureError
  | expiredSignatureError
deriving Repr, DecidableEq

/-- Embeds `jose.jwt.decode(token, key, algorithms=algs)` at clock `now`. -/
def jwtDecode (tok : Token) (key : String) (algs : List String) (now : Int) :
    Except JWTError JWTPayload :=
  if tok.key == key && algs.contains tok.alg then
    if tok.payload.exp < now then .error .expiredSignatureError
    else .ok tok.payload
  else .error .signatureError

/-- Embeds `create_access_token` in `app/core/security.py` for payload
`data = ⟨"sub": sub⟩` (the only payload the routes build): the expiry is
`utcnow() + timedelta(minutes=expireMinutes)` and the token is signed
with `SECRET_KEY` under `ALGORITHM`. -/
def create_access_token (secret alg : String) (expireMinutes : Int) (now : Int)
    (sub : Option String) : Token :=
  { payload := { sub := sub, exp := now + expireMinutes * 60 },
    key := secret, alg := alg }

/-! ## Auth gate (`get_current_user`) -/

/-- A parsed `Authorization` header: its scheme word and the bearer
credential it carries. -/
structure BearerHeader where
  scheme : String
  credentials : Token
deriving Repr, DecidableEq

/-- ASCII lowercasing of one character, embedding Python `str.lower()`
on the scheme word. -/
def lowerChar (c : Char) : Char :=
  if 65 ≤ c.toNat ∧ c.toNat ≤ 90 then Char.ofNat (c.toNat + 32) else c

/-- ASCII lowercasing of a string. -/
def lowerString (s : String) : String := String.mk (s.data.map lowerChar)

/-- Embeds FastAPI's `HTTPBearer()` security dependency (`oauth2_scheme`):
a missing `Authorization` header raises HTTP 403 "Not authenticated", a
non-bearer scheme raises HTTP 403 "Invalid authentication credentials",
and otherwise the credential is returned. -/
def httpBearer (auth : Option BearerHeader) : Except (Nat × String) Token :=
  match auth with
  | none => .error (403, "Not authenticated")
  | some h =>
    if lowerString h.scheme == "bearer" then .ok h.credentials
    else .error (403, "Invalid authentication credentials")

/-- Outcome of the auth gate.  `valueError` records the uncaught Python
`ValueError` raised by `int(user_id)` when the subject is not an
integer literal — it escapes the handler as a server error rather than
an `HTTPException`. -/
inductive AuthOutcome where
  | ok (user : Account)
  | httpError (status : Nat) (detail : String)
  | valueError
deriving Repr, DecidableEq

/-- Embeds `get_current_user` in `app/core/security.py`.  The database
session is threaded through so that state (non-)mutation is visible. -/
def get_current_user (secret alg : String) (now : Int)
    (auth : Option BearerHeader) (db : DB) : AuthOutcome × DB :=
  match httpBearer auth with
  | .error (st, detail) => (.httpError st detail, db)
  | .ok token =>
    match jwtDecode token secret [alg] now with
    | .error _ => (.httpError 401 "Invalid token", db)
    | .ok payload =>
      match payload.sub with
      | none => (.httpError 401 "Invalid token", db)
      | some user_id =>
        match pyIntParse user_id with
        | none => (.valueError, db)
        | some uid =>
          match findById db uid with
          | none => (.httpError 404 "User not found", db)
          | some user => (.ok user, db)

/-! ## Route handlers (`app/routes/auth.py`, `app/routes/user.py`) -/

inductive RegisterResult where
  | ok (message : String) (user_id : Int)
  | httpError (status : Nat) (detail : String)
deriving Repr, DecidableEq

inductive LoginResult where
  | ok (access_token : Token) (token_type : String)
  | httpError (status : Nat) (detail : String)
deriving Repr, DecidableEq

inductive MeResult where
  | ok (id : Int) (email : String)
  | httpError (status : Nat) (detail : String)
  | valueError
deriving Repr, DecidableEq

def meStatus : MeResult → Option Nat
  | .httpError st _ => some st
  | _ => none

namespace auth

/-- Embeds `register_user` (`POST /auth/register`): reject on an email
match, otherwise insert a row whose `password_hash` is
`hash_password(password)` and whose id is the autoincrement id, and
return that id. -/
def register_user (email password : String) (db : DB) : RegisterResult × DB :=
  match findByEmail db email with
  | some _ => (.httpError 400 "Email already registered", db)
  | none =>
    let new_user : Account :=
      { id := db.next_id, email := email, password_hash := hash_password password }
    (.ok "User registered" new_user.id,
     { accounts := db.accounts ++ [new_user], next_id := db.next_id + 1 })

/-- Embeds `login_user` (`POST /auth/login`): `if not user or not
verify_password(...)` collapses both failures into one response, and on
success the token subject is `str(user.id)`. -/
def login_user (secret alg : String) (expireMinutes : Int) (now : Int)
    (email password : String) (db : DB) : LoginResult × DB :=
  match findByEmail db email with
  | none => (.httpError 400 "Invalid credentials", db)
  | some user =>
    if !verify_password password user.password_hash then
      (.httpError 400 "Invalid credentials", db)
    else
      (.ok (create_access_token secret alg expireMinutes now (some (toString user.id)))
         "bearer", db)

/-- Embeds `get_me` in `app/routes/auth.py` (`GET /auth/me`): run the
auth gate, then answer with the account's id and email. -/
def get_me (secret alg : String) (now : Int) (auth : Option BearerHeader)
    (db : DB) : MeResult × DB :=
  match get_current_user secret alg now auth db with
  | (.ok u, db2) => (.ok u.id u.email, db2)
  | (.httpError st detail, db2) => (.httpError st detail, db2)
  | (.valueError, db2) => (.valueError, db2)

end auth

namespace user

/-- Embeds `get_me` in `app/routes/user.py` (`GET /users/me`): run the
auth gate, then answer with the account's id and email. -/
def get_me (secret alg : String) (now : Int) (auth : Option BearerHeader)
    (db : DB) : MeResult × DB :=
  match get_current_user secret alg now auth db with
  | (.ok u, db2) => (.ok u.id u.email, db2)
  | (.httpError st detail, db2) => (.httpError st detail, db2)
  | (.valueError, db2) => (.valueError, db2)

end user

/-! ## Startup configuration (`app/core/security.py` lines 10-12,
`app/core/database.py` lines 10-14)

The process environment after `load_dotenv` is a record of four
optional variables.  Module loading evaluates, in the order `main.py`
pulls them in: `DATABASE_URL = os.getenv(...)` then
`create_engine(DATABASE_URL, ...)` — which raises `ArgumentError` at
startup when the value is `None` or not of the `dialect://...` shape —
then `SECRET_KEY = os.getenv(...)` and `ALGORITHM = os.getenv(...)`,
which never fail, then
`ACCESS_TOKEN_EXPIRE_MINUTES = int(os.getenv(...))`, which raises
`TypeError` at startup when the variable is absent and `ValueError`
when it is not an integer literal. -/

structure Env where
  secret_key : Option String
  algorithm : Option String
  access_token_expire_minutes : Option String
  database_url : Option String
deriving Repr, DecidableEq

inductive StartupError where
  | engineArgumentError
  | intConversionError
deriving Repr, DecidableEq

structure AppConfig where
  DATABASE_URL : String
  SECRET_KEY : Option String
  ALGORITHM : Option String
  ACCESS_TOKEN_EXPIRE_MINUTES : Int
deriving Repr, DecidableEq

def isPrefixChars : List Char → List Char → Bool
  | [], _ => true
  | _ :: _, [] => false
  | p :: ps, c :: cs => p == c && isPrefixChars ps cs

def hasSubstrChars (pat : List Char) : List Char → Bool
  | [] => isPrefixChars pat []
  | c :: cs => isPrefixChars pat (c :: cs) || hasSubstrChars pat cs

/-- Modelled condition for `sqlalchemy.create_engine` to accept a URL
string: it must contain the `://` separator of `dialect://rest`. -/
def urlParses (s : String) : Bool :=
  hasSubstrChars "://".data s.data

/-- Embeds the module-level configuration loading run at process
startup. -/
def startupLoad (env : Env) : Except StartupError AppConfig :=
  match env.database_url with
  | none => .error .engineArgumentError
  | some u =>
    if urlParses u then
      match env.access_token_expire_minutes with
      | none => .error .intConversionError
      | some s =>
        match pyIntParse s with
        | none => .error .intConversionError
        | some m =>
          .ok { DATABASE_URL := u, SECRET_KEY := env.secret_key,
                ALGORITHM := env.algorithm, ACCESS_TOKEN_EXPIRE_MINUTES := m }
    else .error .engineArgumentError

/-! ## Derived characterizations and concrete fixtures -/

/-- Does the modelled startup raise before serving? -/
def loadFailed : Except StartupError AppConfig → Bool
  | .error _ => true
  | .ok _ => false

/-- Characterization of the startup failures the code actually has:
only the database URL and the expiry-minutes variable are checked while
modules load. -/
def startupFails (env : Env) : Bool :=
  (match env.database_url with
   | none => true
   | some u => !urlParses u) ||
  (match env.access_token_expire_minutes with
   | none => true
   | some s => (pyIntParse s).isNone)

/-- Empty database. -/
def db0 : DB := { accounts := [], next_id := 1 }

/-- Database holding one registered account (digest abbreviated). -/
def dbOne : DB :=
  { accounts := [{ id := 1, email := "a@x.com", password_hash := "x" }], next_id := 2 }

/-- A token issued with ttl of minus one minute at time 1000. -/
def tokExpired : Token := create_access_token "k" "HS256" (-1) 1000 (some "1")

/-- A token signed under a different key. -/
def tokBadKey : Token :=
  { payload := { sub := some "1", exp := 2000 }, key := "other", alg := "HS256" }

/-- A validly signed, unexpired token with numeric subject 1. -/
def tokGood : Token :=
  { payload := { sub := some "1", exp := 100 }, key := "k", alg := "HS256" }

/-- A validly signed, unexpired token with non-numeric subject. -/
def tokAlpha : Token :=
  { payload := { sub := some "abc", exp := 100 }, key := "k", alg := "HS256" }

/-- Environment with both signing variables unset but the two checked
ones present and well-formed. -/
def envMissingSecret : Env :=
  { secret_key := none, algorithm := none,
    access_token_expire_minutes := some "30",
    database_url := some "sqlite:///./erp.db" }

/-! ## Helper lemmas -/

theorem hex8_length (x : Nat) : (hex8 x).length = 8 := by
  simp [hex8]

theorem sha256hex_length (msg : List Nat) : (sha256hex msg).length = 64 := by
  simp [sha256hex, hex8_length]

theorem hash_password_length (p : String) : (hash_password p).length = 64 :=
  sha256hex_length _

theorem verify_password_short_digest (p d : String) (hd : d.length ≠ 64) :
    verify_password p d = false := by
  simp only [verify_password, beq_eq_false_iff_ne, ne_eq]
  intro heq
  exact hd (heq ▸ hash_password_length p)

theorem httpBearer_bearer (tok : Token) :
    httpBearer (some { scheme := "Bearer", credentials := tok }) = .ok tok := by
  have h : (lowerString "Bearer" == "bearer") = true := by decide
  simp [httpBearer, h]

theorem jwtDecode_valid (tok : Token) (secret alg : String) (now : Int)
    (hkey : tok.key = secret) (halg : tok.alg = alg)
    (hexp : ¬ tok.payload.exp < now) :
    jwtDecode tok secret [alg] now = .ok tok.payload := by
  simp [jwtDecode, hkey, halg, hexp]

theorem countEmailList_le_one (l : List Account) (h : emailsDistinct l = true)
    (e : String) : (l.filter (fun a => a.email == e)).length ≤ 1 := by
  induction l with
  | nil => simp
  | cons a tl ih =>
    simp only [emailsDistinct, Bool.and_eq_true, List.all_eq_true] at h
    obtain ⟨hall, htl⟩ := h
    by_cases he : (a.email == e) = true
    · have hnil : tl.filter (fun b => b.email == e) = [] := by
        rw [List.filter_eq_nil_iff]
        intro b hb
        have hne := hall b hb
        simp only [bne_iff_ne, ne_eq] at hne
        simp only [beq_iff_eq] at he ⊢
        intro hbe
        exact hne (he ▸ hbe ▸ rfl)
      simp [List.filter_cons, he, hnil]
    · simp only [List.filter_cons, he, if_false, Bool.false_eq_true]
      exact ih htl

theorem countEmail_le_one (db : DB) (h : emailUnique db) (e : String) :
    countEmail db e ≤ 1 :=
  countEmailList_le_one db.accounts h e

theorem countEmail_pos_of_found (db : DB) (e : String) (a : Account)
    (h : findByEmail db e = some a) : 1 ≤ countEmail db e := by
  unfold findByEmail at h
  have hmem : a ∈ db.accounts := List.mem_of_find?_eq_some h
  have hpa := List.find?_some (p := fun x : Account => x.email == e) h
  have hfmem : a ∈ db.accounts.filter (fun x => x.email == e) :=
    List.mem_filter.mpr ⟨hmem, hpa⟩
  unfold countEmail
  exact List.length_pos_of_mem hfmem

/-! ## Claim theorems -/

/-- C1: Token round-trip — a token issued by `create_access_token` with
payload subject `s`, decoded with the same secret and algorithm at any
time at or before its embedded expiry, decodes successfully and carries
exactly `s` as its subject. -/
theorem token_roundtrip (s secret alg : String) (m now now2 : Int)
    (h : now2 ≤ now + m * 60) :
    jwtDecode (create_access_token secret alg m now (some s)) secret [alg] now2
      = .ok { sub := some s, exp := now + m * 60 } := by
  have hc : jwtDecode (create_access_token secret alg m now (some s)) secret [alg] now2
      = .ok (create_access_token secret alg m now (some s)).payload :=
    jwtDecode_valid _ _ _ _ rfl rfl (by simp [create_access_token]; omega)
  simpa [create_access_token] using hc

/-- Witness for C1 at subject "1", secret "k", algorithm "HS256",
thirty-minute ttl, issued at time 0 and decoded at time 10. -/
theorem token_roundtrip_witness :
    jwtDecode (create_access_token "k" "HS256" 30 0 (some "1")) "k" ["HS256"] 10
      = .ok { sub := some "1", exp := 1800 } := by
  have h := token_roundtrip "1" "k" "HS256" 30 0 10 (by decide)
  simpa using h

/-- C2: Hasher correctness — `verify_password p d` is true exactly when
`hash_password p` equals `d`, and in particular verifying a password
against its own hash succeeds. -/
theorem verify_password_iff (p d : String) :
    (verify_password p d = true ↔ hash_password p = d) ∧
    verify_password p (hash_password p) = true := by
  constructor
  · simp [verify_password]
  · simp [verify_password]

/-- C3 counterexample: a request to `GET /auth/me` with no authorization
header is rejected with HTTP 403 "Not authenticated" (raised by
FastAPI's `HTTPBearer`), not with status 401 as the claim states. -/
theorem missing_header_counterexample :
    (auth.get_me "k" "HS256" 0 none db0).1 = .httpError 403 "Not authenticated" ∧
    meStatus (auth.get_me "k" "HS256" 0 none db0).1 ≠ some 401 := by
  exact ⟨rfl, by decide⟩

/-- C3 amended: a request to the protected `WhoAmI` endpoint with no
authorization header fails before any token processing, with HTTP 403
"Not authenticated" raised by the `HTTPBearer` dependency. -/
theorem missing_header_403 (secret alg : String) (now : Int) (db : DB) :
    auth.get_me secret alg now none db = (.httpError 403 "Not authenticated", db) := rfl

/-- C10: the `WhoAmI` handler mounted at `/auth/me` and the one mounted
at `/users/me` are extensionally equal: same answer and same final
state on every input, authenticated or not. -/
theorem get_me_endpoints_equivalent (secret alg : String) (now : Int)
    (hdr : Option BearerHeader) (db : DB) :
    auth.get_me secret alg now hdr db = user.get_me secret alg now hdr db := rfl

/-- C4 counterexample: a token issued with ttl of minus one minute and
verified immediately is rejected by `jwt.decode` as expired
(`ExpiredSignatureError`), but because that exception is a `JWTError`
the handler returns HTTP 401 "Invalid token" — byte-for-byte the same
response a token signed under a wrong key receives, so no distinct
`Expired` error exists in the observable taxonomy. -/
theorem expired_token_counterexample :
    jwtDecode tokExpired "k" ["HS256"] 1000 = .error .expiredSignatureError ∧
    (get_current_user "k" "HS256" 1000
        (some { scheme := "Bearer", credentials := tokExpired }) dbOne).1
      = .httpError 401 "Invalid token" ∧
    (get_current_user "k" "HS256" 1000
        (some { scheme := "Bearer", credentials := tokBadKey }) dbOne).1
      = .httpError 401 "Invalid token" := by
  refine ⟨by decide, by decide, by decide⟩

/-- C4 amended: a validly signed token whose embedded expiry is earlier
than the current time fails verification (python-jose raises
`ExpiredSignatureError`), but since that error is a `JWTError` subclass
caught by the same handler, the request is answered with HTTP 401
"Invalid token", identical to the `InvalidToken` response; no distinct
`Expired` error reaches the client. -/
theorem expired_token_same_as_invalid (secret alg : String) (now : Int)
    (tok : Token) (db : DB)
    (hkey : tok.key = secret) (halg : tok.alg = alg)
    (hexp : tok.payload.exp < now) :
    jwtDecode tok secret [alg] now = .error .expiredSignatureError ∧
    (get_current_user secret alg now
        (some { scheme := "Bearer", credentials := tok }) db).1
      = .httpError 401 "Invalid token" := by
  have hd : jwtDecode tok secret [alg] now = .error .expiredSignatureError := by
    simp [jwtDecode, hkey, halg, hexp]
  refine ⟨hd, ?_⟩
  simp [get_current_user, httpBearer_bearer, hd]

/-- Witness for the amended C4 at the concrete expired token
`tokExpired` (ttl minus one minute, issued and checked at time 1000). -/
theorem expired_token_same_as_invalid_witness :
    jwtDecode tokExpired "k" ["HS256"] 1000 = .error .expiredSignatureError ∧
    (get_current_user "k" "HS256" 1000
        (some { scheme := "Bearer", credentials := tokExpired }) dbOne).1
      = .httpError 401 "Invalid token" :=
  expired_token_same_as_invalid "k" "HS256" 1000 tokExpired dbOne rfl rfl (by decide)

/-- C5: Login indistinguishability — a login whose email matches no
account and a login whose email matches but whose password hash differs
from the stored digest produce the very same HTTP 400 "Invalid
credentials" response. -/
theorem login_failures_indistinguishable (secret alg : String) (m now now2 : Int)
    (e1 p1 e2 p2 : String) (dbA dbB : DB) (u : Account)
    (h1 : findByEmail dbA e1 = none)
    (h2 : findByEmail dbB e2 = some u)
    (hv : verify_password p2 u.password_hash = false) :
    (auth.login_user secret alg m now e1 p1 dbA).1
      = .httpError 400 "Invalid credentials" ∧
    (auth.login_user secret alg m now2 e2 p2 dbB).1
      = .httpError 400 "Invalid credentials" ∧
    (auth.login_user secret alg m now e1 p1 dbA).1
      = (auth.login_user secret alg m now2 e2 p2 dbB).1 := by
  have hA : (auth.login_user secret alg m now e1 p1 dbA).1
      = .httpError 400 "Invalid credentials" := by
    simp [auth.login_user, h1]
  have hB : (auth.login_user secret alg m now2 e2 p2 dbB).1
      = .httpError 400 "Invalid credentials" := by
    simp [auth.login_user, h2, hv]
  exact ⟨hA, hB, hA.trans hB.symm⟩

/-- Witness for C5: unregistered email "b@x.com" against the empty
store, and registered email "a@x.com" with a wrong password against a
store whose digest for it is "x". -/
theorem login_failures_indistinguishable_witness :
    (auth.login_user "k" "HS256" 30 0 "b@x.com" "pw" db0).1
      = .httpError 400 "Invalid credentials" ∧
    (auth.login_user "k" "HS256" 30 0 "a@x.com" "wrong" dbOne).1
      = .httpError 400 "Invalid credentials" ∧
    (auth.login_user "k" "HS256" 30 0 "b@x.com" "pw" db0).1
      = (auth.login_user "k" "HS256" 30 0 "a@x.com" "wrong" dbOne).1 :=
  login_failures_indistinguishable "k" "HS256" 30 0 0 "b@x.com" "pw" "a@x.com" "wrong"
    db0 dbOne { id := 1, email := "a@x.com", password_hash := "x" }
    (by decide) (by decide) (verify_password_short_digest "wrong" "x" (by decide))

/-- C9: a validly signed, unexpired token whose "sub" claim is present
but not an integer literal makes `get_current_user` raise an uncaught
`ValueError` from `int(user_id)` — a server error, not the HTTP 401
"Invalid token" response — because the conversion happens outside the
`JWTError` handler. -/
theorem nonnumeric_subject_value_error (secret alg : String) (now : Int)
    (tok : Token) (db : DB) (s : String)
    (hkey : tok.key = secret) (halg : tok.alg = alg)
    (hexp : ¬ tok.payload.exp < now)
    (hsub : tok.payload.sub = some s)
    (hparse : pyIntParse s = none) :
    (get_current_user secret alg now
        (some { scheme := "Bearer", credentials := tok }) db).1 = .valueError ∧
    (get_current_user secret alg now
        (some { scheme := "Bearer", credentials := tok }) db).1
      ≠ .httpError 401 "Invalid token" := by
  have hd := jwtDecode_valid tok secret alg now hkey halg hexp
  have hmain : (get_current_user secret alg now
      (some { scheme := "Bearer", credentials := tok }) db).1 = .valueError := by
    simp [get_current_user, httpBearer_bearer, hd, hsub, hparse]
  exact ⟨hmain, by simp [hmain]⟩

/-- Witness for C9 at the concrete token `tokAlpha`, whose subject is
"abc", verified at time 50. -/
theorem nonnumeric_subject_value_error_witness :
    (get_current_user "k" "HS256" 50
        (some { scheme := "Bearer", credentials := tokAlpha }) dbOne).1 = .valueError ∧
    (get_current_user "k" "HS256" 50
        (some { scheme := "Bearer", credentials := tokAlpha }) dbOne).1
      ≠ .httpError 401 "Invalid token" :=
  nonnumeric_subject_value_error "k" "HS256" 50 tokAlpha dbOne "abc"
    rfl rfl (by decide) rfl (by decide)

/-- C7: Auth Gate lookup — for a validly signed, unexpired token whose
subject is an integer literal, the gate answers exactly according to
`findById`: HTTP 404 "User not found" when no account has that id, the
resolved account otherwise, and the database state is unchanged either
way. -/
theorem auth_gate_lookup (secret alg : String) (now : Int) (tok : Token)
    (db : DB) (s : String) (uid : Int)
    (hkey : tok.key = secret) (halg : tok.alg = alg)
    (hexp : ¬ tok.payload.exp < now)
    (hsub : tok.payload.sub = some s)
    (hparse : pyIntParse s = some uid) :
    get_current_user secret alg now
        (some { scheme := "Bearer", credentials := tok }) db
      = ((findById db uid).elim (.httpError 404 "User not found") AuthOutcome.ok,
         db) := by
  have hd := jwtDecode_valid tok secret alg now hkey halg hexp
  cases hfind : findById db uid with
  | none => simp [get_current_user, httpBearer_bearer, hd, hsub, hparse, hfind]
  | some a => simp [get_current_user, httpBearer_bearer, hd, hsub, hparse, hfind]

/-- Witness for C7 at the concrete token `tokGood` (subject "1") against
the store `dbOne`, which holds the account with id 1. -/
theorem auth_gate_lookup_witness :
    get_current_user "k" "HS256" 50
        (some { scheme := "Bearer", credentials := tokGood }) dbOne
      = ((findById dbOne 1).elim (.httpError 404 "User not found") AuthOutcome.ok,
         dbOne) :=
  auth_gate_lookup "k" "HS256" 50 tokGood dbOne "1" 1
    rfl rfl (by decide) rfl (by decide)

/-- C6: Register atomicity — under the email-uniqueness invariant,
registering email `e` fails with HTTP 400 "Email already registered"
and leaves the state untouched when a row with `e` exists, inserts
exactly the row `(next_id, e, hash_password p)` and returns that id
when none does, and in both cases exactly one row with email `e` is
stored afterward. -/
theorem register_atomic (e p : String) (db : DB) (hinv : emailUnique db) :
    (auth.register_user e p db).1 =
      (if (findByEmail db e).isSome then .httpError 400 "Email already registered"
       else .ok "User registered" db.next_id) ∧
    (auth.register_user e p db).2 =
      (if (findByEmail db e).isSome then db
       else { accounts := db.accounts ++
                [{ id := db.next_id, email := e, password_hash := hash_password p }],
              next_id := db.next_id + 1 }) ∧
    countEmail (auth.register_user e p db).2 e = 1 := by
  cases hfind : findByEmail db e with
  | some a =>
    have h1 : auth.register_user e p db
        = (.httpError 400 "Email already registered", db) := by
      simp [auth.register_user, hfind]
    have hle := countEmail_le_one db hinv e
    have hge := countEmail_pos_of_found db e a hfind
    refine ⟨by simp [h1, hfind], by simp [h1, hfind], ?_⟩
    rw [h1]
    show countEmail db e = 1
    omega
  | none =>
    have h1 : auth.register_user e p db
        = (.ok "User registered" db.next_id,
           { accounts := db.accounts ++
               [{ id := db.next_id, email := e, password_hash := hash_password p }],
             next_id := db.next_id + 1 }) := by
      simp [auth.register_user, hfind]
    have hnil : db.accounts.filter (fun x => x.email == e) = [] := by
      rw [List.filter_eq_nil_iff]
      intro x hx
      unfold findByEmail at hfind
      exact (List.find?_eq_none.mp hfind) x hx
    refine ⟨by simp [h1, hfind], by simp [h1, hfind], ?_⟩
    rw [h1]
    simp [countEmail, List.filter_append, hnil]

/-- Witness for C6: re-registering "a@x.com" against `dbOne`, which
already holds it. -/
theorem register_atomic_witness :
    (auth.register_user "a@x.com" "pw2" dbOne).1 =
      (if (findByEmail dbOne "a@x.com").isSome
       then .httpError 400 "Email already registered"
       else .ok "User registered" dbOne.next_id) ∧
    (auth.register_user "a@x.com" "pw2" dbOne).2 =
      (if (findByEmail dbOne "a@x.com").isSome then dbOne
       else { accounts := dbOne.accounts ++
                [{ id := dbOne.next_id, email := "a@x.com",
                   password_hash := hash_password "pw2" }],
              next_id := dbOne.next_id + 1 }) ∧
    countEmail (auth.register_user "a@x.com" "pw2" dbOne).2 "a@x.com" = 1 :=
  register_atomic "a@x.com" "pw2" dbOne (by decide)

/-- C8 counterexample: an environment lacking both `SECRET_KEY` and
`ALGORITHM` but carrying well-formed `ACCESS_TOKEN_EXPIRE_MINUTES` and
`DATABASE_URL` starts up without any failure, contradicting the claim
that a missing value among the four always fails fast. -/
theorem startup_failfast_counterexample :
    startupLoad envMissingSecret =
      .ok { DATABASE_URL := "sqlite:///./erp.db", SECRET_KEY := none,
            ALGORITHM := none, ACCESS_TOKEN_EXPIRE_MINUTES := 30 } ∧
    envMissingSecret.secret_key = none ∧
    envMissingSecret.algorithm = none :=
  ⟨by decide, rfl, rfl⟩

/-- C8 amended: startup fails exactly when `DATABASE_URL` is missing or
not URL-shaped, or `ACCESS_TOKEN_EXPIRE_MINUTES` is missing or not an
integer literal; a missing or malformed `SECRET_KEY` or `ALGORITHM`
never fails startup (both load as None and surface only at request
time). -/
theorem startup_failfast_characterization (env : Env) :
    loadFailed (startupLoad env) = startupFails env := by
  obtain ⟨sk, al, atem, du⟩ := env
  cases du with
  | none => rfl
  | some u =>
    cases hurl : urlParses u with
    | false => simp [startupLoad, startupFails, loadFailed, hurl]
    | true =>
      cases atem with
      | none => simp [startupLoad, startupFails, loadFailed, hurl]
      | some s =>
        cases hp : pyIntParse s with
        | none => simp [startupLoad, startupFails, loadFailed, hurl, hp]
        | some m => simp [startupLoad, startupFails, loadFailed, hurl, hp]
